import Mathlib

/-!
Shallow embedding of `pyvisioniq.py`: the rate-limited polling scheduler
(`scheduled_update`), the per-cycle acquisition and publication routine
(`fetch_and_update_metrics`), the derived rate-budget interval
(`interval_between_requests`), the CSV log store writes, and the report
renderer's read path (`rangeplot`).

Modelling conventions:
- Instants are integers (seconds).  `datetime.now()` is naive local wall-clock
  time; `Env.nowLocal` is the value it returns at line 105 of the source, and
  `Env.tzOffset` is the (ghost) offset of that local clock from UTC, so the
  true UTC instant of the reading is `nowLocal - tzOffset`.  The source's
  `.replace(tzinfo=timezone.utc)` keeps the numbers and merely re-tags them,
  so the code's comparison uses `nowLocal` directly.
- The vendor adapter (`VehicleManager`) is modelled as an oracle `Adapter`
  recording the outcome of each of the five calls a cycle can make.
- Exceptions are modelled with `Except`: the first try-block catches every
  exception kind (both the recognized taxonomy and the catch-all handler),
  while `force_refresh_vehicle_state` at line 109 is outside any try-block,
  so an error there propagates out of `fetch_and_update_metrics`.
- The CSV file is `Option (List CsvLine)`: `none` means the file does not
  exist (`os.path.exists` is false).  A full write emits the header row and
  one data row; an append (`mode='a', header=False`) adds one data row.
  `Env.csvWriteOk` models whether the filesystem write succeeds.
- Timestamps in a row are stored as the character sequence produced by
  `datetime.isoformat()`; the renderer parses them leniently
  (`pd.to_datetime(..., errors='coerce')`), modelled by `parseIso` returning
  `Option Dt` (`none` is the coerced null / NaT).
-/

deriving instance DecidableEq for Except

namespace Pyvisioniq

/-- Failure kinds an adapter call can raise: the recognized taxonomy imported
at lines 9-18 of the source, plus `KeyError`/`ConnectionError`, plus an
unclassified kind for the catch-all handler and an I/O kind for file writes. -/
inductive PyError where
  | authenticationError
  | apiError
  | rateLimitingError
  | noDataFound
  | serviceTemporaryUnavailable
  | duplicateRequestError
  | requestTimeoutError
  | invalidAPIResponseError
  | keyError
  | connectionError
  | ioError
  | unexpected
  deriving DecidableEq

/-- The taxonomy kinds caught by the first `except` clause (lines 81-92). -/
def PyError.recognized : PyError → Bool
  | .authenticationError => true
  | .apiError => true
  | .rateLimitingError => true
  | .noDataFound => true
  | .serviceTemporaryUnavailable => true
  | .duplicateRequestError => true
  | .requestTimeoutError => true
  | .invalidAPIResponseError => true
  | .keyError => true
  | .connectionError => true
  | .ioError => false
  | .unexpected => false

/-- Vehicle state as read from the adapter (`vm.get_vehicle`).  Numeric
telemetry fields are rationals; `ev_battery_soh_percentage` may be absent
(`None` in Python); `last_updated_at` is a UTC instant in seconds. -/
structure Vehicle where
  ev_battery_percentage : ℚ
  odometer : ℚ
  ev_battery_soh_percentage : Option ℚ
  ev_driving_range : ℚ
  location_longitude : ℚ
  location_latitude : ℚ
  last_updated_at : ℤ
  deriving DecidableEq

/-- A naive wall-clock datetime as produced by `datetime.now()`. -/
structure Dt where
  year : ℕ
  month : ℕ
  day : ℕ
  hour : ℕ
  minute : ℕ
  second : ℕ
  microsecond : ℕ
  deriving DecidableEq

/-- Oracle for the adapter calls one cycle can make, in source order:
`check_and_refresh_token` (line 77), `update_vehicle_with_cached_state`
(line 79), the first `get_vehicle` (line 80), `force_refresh_vehicle_state`
(line 109), the second `get_vehicle` (line 110). -/
structure Adapter where
  refreshToken : Except PyError Unit
  cachedUpdate : Except PyError Unit
  getVehicle1 : Option Vehicle
  forceRefresh : Except PyError Unit
  getVehicle2 : Option Vehicle
  deriving DecidableEq

/-- Per-cycle environment: the clock readings and the filesystem's mood. -/
structure Env where
  /-- What `datetime.now()` returns at line 105 (naive local seconds). -/
  nowLocal : ℤ
  /-- Ghost data: local-clock minus UTC; the code never reads it. -/
  tzOffset : ℤ
  /-- `interval_between_requests` in seconds. -/
  intervalS : ℤ
  /-- What `datetime.now()` returns at line 132 (timestamp of the log row). -/
  logTime : Dt
  /-- Whether the CSV write at lines 143/145 succeeds. -/
  csvWriteOk : Bool
  deriving DecidableEq

/-- The true UTC instant of the line-105 clock reading. -/
def Env.utcNow (env : Env) : ℤ := env.nowLocal - env.tzOffset

/-- The four Prometheus gauges (lines 63-66). -/
structure Gauges where
  chargingLevel : ℚ
  mileage : ℚ
  batteryHealth : ℚ
  evDrivingRange : ℚ
  deriving DecidableEq

/-- One data row of the CSV log store (lines 131-139).  The timestamp is the
character sequence `datetime.now().isoformat()` produced at write time. -/
structure Row where
  ts : List Char
  chargingLevel : ℚ
  mileage : ℚ
  batteryHealth : ℚ
  evDrivingRange : ℚ
  longitude : ℚ
  latitude : ℚ
  deriving DecidableEq

/-- A line of the CSV file: the header emitted on first write, or a data row. -/
inductive CsvLine where
  | header
  | data (r : Row)
  deriving DecidableEq

/-- Observable system state a cycle can modify: the gauges and the log file
(`none` = the file does not exist yet). -/
structure SysState where
  gauges : Gauges
  csv : Option (List CsvLine)
  deriving DecidableEq

/-- How a run of `fetch_and_update_metrics` ends: normal completion, the
early `return` at line 114, or an uncaught exception propagating out. -/
inductive FetchOutcome where
  | done
  | skipped
  | raised (e : PyError)
  deriving DecidableEq

/-- Result of one run of `fetch_and_update_metrics`: how it ended, how many
times `force_refresh_vehicle_state` was invoked, and the final state. -/
structure FetchResult where
  outcome : FetchOutcome
  forcedRefreshCalls : ℕ
  state : SysState
  deriving DecidableEq

/-- `timedelta(seconds=86400 // APILIMIT)` (line 69), in seconds.  Python
`//` on positive ints is floor division, as is `Nat` division. -/
def interval_between_requests (apilimit : ℕ) : ℕ := 86400 / apilimit

/-- Serialization helpers: fixed-width decimal digit groups, as printed by
`datetime.isoformat()`. -/
def pad2 (n : ℕ) : List Char :=
  [Nat.digitChar (n / 10 % 10), Nat.digitChar (n % 10)]

/-- Four-digit zero-padded year group of `isoformat`. -/
def pad4 (n : ℕ) : List Char :=
  [Nat.digitChar (n / 1000 % 10), Nat.digitChar (n / 100 % 10),
   Nat.digitChar (n / 10 % 10), Nat.digitChar (n % 10)]

/-- Six-digit zero-padded microsecond group of `isoformat`. -/
def pad6 (n : ℕ) : List Char :=
  [Nat.digitChar (n / 100000 % 10), Nat.digitChar (n / 10000 % 10),
   Nat.digitChar (n / 1000 % 10), Nat.digitChar (n / 100 % 10),
   Nat.digitChar (n / 10 % 10), Nat.digitChar (n % 10)]

/-- `datetime.isoformat()`: `YYYY-MM-DDTHH:MM:SS` followed by `.ffffff`
exactly when the microsecond field is nonzero. -/
def isoChars (d : Dt) : List Char :=
  pad4 d.year ++ ['-'] ++ pad2 d.month ++ ['-'] ++ pad2 d.day ++ ['T'] ++
  pad2 d.hour ++ [':'] ++ pad2 d.minute ++ [':'] ++ pad2 d.second ++
  (if d.microsecond = 0 then [] else ['.'] ++ pad6 d.microsecond)

/-- `vehicle.ev_battery_soh_percentage if vehicle.ev_battery_soh_percentage
else 0` (line 120): Python truthiness maps both `None` and `0` to `0`. -/
def batteryHealthOf (v : Vehicle) : ℚ :=
  match v.ev_battery_soh_percentage with
  | none => 0
  | some x => if x = 0 then 0 else x

/-- The gauge values published for a vehicle (lines 126-129). -/
def gaugesOf (v : Vehicle) : Gauges :=
  { chargingLevel := v.ev_battery_percentage
    mileage := v.odometer
    batteryHealth := batteryHealthOf v
    evDrivingRange := v.ev_driving_range }

/-- The data row logged for a vehicle (lines 131-139). -/
def rowOf (env : Env) (v : Vehicle) : Row :=
  { ts := isoChars env.logTime
    chargingLevel := v.ev_battery_percentage
    mileage := v.odometer
    batteryHealth := batteryHealthOf v
    evDrivingRange := v.ev_driving_range
    longitude := v.location_longitude
    latitude := v.location_latitude }

/-- The vehicle held after the first try-block (lines 76-95): `None` when any
of the three calls raised (every exception kind is caught there) or when
`get_vehicle` itself returned `None`. -/
def step1Vehicle (a : Adapter) : Option Vehicle :=
  match a.refreshToken with
  | .error _ => none
  | .ok _ =>
    match a.cachedUpdate with
    | .error _ => none
    | .ok _ => a.getVehicle1

/-- `last_updated_threshold` (line 105): local `datetime.now()` minus the
interval, re-tagged as UTC without conversion. -/
def lastUpdatedThreshold (env : Env) : ℤ := env.nowLocal - env.intervalS

/-- Lines 116-152: set the four gauges, then write the row to the CSV file
(full write with header when the file does not exist, append otherwise).
The gauges are set before the file is touched. -/
def publishAndLog (env : Env) (v : Vehicle) (forced : ℕ) (s : SysState) :
    FetchResult :=
  let s1 : SysState := { s with gauges := gaugesOf v }
  match s.csv with
  | none =>
    if env.csvWriteOk then
      ⟨.done, forced, { s1 with csv := some [.header, .data (rowOf env v)] }⟩
    else ⟨.raised .ioError, forced, s1⟩
  | some ls =>
    if env.csvWriteOk then
      ⟨.done, forced, { s1 with csv := some (ls ++ [.data (rowOf env v)]) }⟩
    else ⟨.raised .ioError, forced, s1⟩

/-- Lines 108-114: the forced-refresh path.  `force_refresh_vehicle_state`
is outside every try-block, so an error there propagates; otherwise the
vehicle is re-read and, when still `None`, the cycle returns early. -/
def forcedPath (env : Env) (a : Adapter) (s : SysState) : FetchResult :=
  match a.forceRefresh with
  | .error e => ⟨.raised e, 1, s⟩
  | .ok _ =>
    match a.getVehicle2 with
    | none => ⟨.skipped, 1, s⟩
    | some v => publishAndLog env v 1 s

/-- `fetch_and_update_metrics` (lines 71-152). -/
def fetch_and_update_metrics (env : Env) (a : Adapter) (s : SysState) :
    FetchResult :=
  match step1Vehicle a with
  | none => forcedPath env a s
  | some v =>
    if v.last_updated_at < lastUpdatedThreshold env then forcedPath env a s
    else publishAndLog env v 0 s

/-- The vehicle state a cycle successfully obtains and uses, if any: the
cached read when fresh, otherwise the post-forced-refresh read (absent when
the forced refresh raised or the re-read returned `None`). -/
def obtainedVehicle (env : Env) (a : Adapter) : Option Vehicle :=
  match step1Vehicle a with
  | none =>
    match a.forceRefresh with
    | .error _ => none
    | .ok _ => a.getVehicle2
  | some v =>
    if v.last_updated_at < lastUpdatedThreshold env then
      match a.forceRefresh with
      | .error _ => none
      | .ok _ => a.getVehicle2
    else some v

/-- Whether a CSV line is a data row. -/
def CsvLine.isData : CsvLine → Bool
  | .header => false
  | .data _ => true

/-- Number of data rows in the log file (0 when the file does not exist). -/
def dataRowCount (c : Option (List CsvLine)) : ℕ :=
  match c with
  | none => 0
  | some ls => (ls.filter CsvLine.isData).length

/-- Number of header rows in the log file. -/
def headerRowCount (c : Option (List CsvLine)) : ℕ :=
  match c with
  | none => 0
  | some ls => (ls.filter fun l => !l.isData).length

/-- `.replace(second=0, microsecond=0)` on an instant in seconds: truncate
down to the minute. -/
def truncMinute (t : ℤ) : ℤ := t - t % 60

/-- Start time of the next scheduler iteration (lines 157-162): `next_update`
is `now + interval` truncated to the minute, the fetch takes `dur` seconds,
and the loop sleeps `max(0, next_update - now_after_fetch)`. -/
def nextIterStart (intervalS now dur : ℤ) : ℤ :=
  (now + dur) + max 0 (truncMinute (now + intervalS) - (now + dur))

/-- Outcome of one iteration of the `while True` loop in `scheduled_update`:
either the loop continues at a known start time with the new state, or an
exception propagated out of `fetch_and_update_metrics` and the loop (which
has no handler) terminates. -/
inductive LoopStep where
  | next (s : SysState) (nextStart : ℤ)
  | crashed (e : PyError)
  deriving DecidableEq

/-- One iteration of `scheduled_update` (lines 154-162), started at local
time `now`, with the fetch taking `dur` seconds. -/
def scheduled_update_step (env : Env) (a : Adapter) (now dur : ℤ)
    (s : SysState) : LoopStep :=
  let r := fetch_and_update_metrics env a s
  match r.outcome with
  | .raised e => .crashed e
  | _ => .next r.state (nextIterStart env.intervalS now dur)

/-- Lenient digit read: `some` value for `'0'`-`'9'`, else `none`. -/
def charDigit (c : Char) : Option ℕ :=
  if 48 ≤ c.toNat ∧ c.toNat ≤ 57 then some (c.toNat - 48) else none

/-- Read two decimal digits. -/
def num2 (a b : Char) : Option ℕ := do
  let x ← charDigit a
  let y ← charDigit b
  pure (10 * x + y)

/-- Read four decimal digits. -/
def num4 (a b c d : Char) : Option ℕ := do
  let x ← charDigit a
  let y ← charDigit b
  let z ← charDigit c
  let w ← charDigit d
  pure (1000 * x + 100 * y + 10 * z + w)

/-- Read six decimal digits. -/
def num6 (a b c d e f : Char) : Option ℕ := do
  let x ← charDigit a
  let y ← charDigit b
  let z ← charDigit c
  let w ← charDigit d
  let u ← charDigit e
  let t ← charDigit f
  pure (100000 * x + 10000 * y + 1000 * z + 100 * w + 10 * u + t)

/-- Days in a month of the proleptic Gregorian calendar. -/
def daysInMonth (y m : ℕ) : ℕ :=
  if m = 2 then
    if (y % 4 = 0 ∧ y % 100 ≠ 0) ∨ y % 400 = 0 then 29 else 28
  else if m = 4 ∨ m = 6 ∨ m = 9 ∨ m = 11 then 30 else 31

/-- Validity of a naive datetime: the ranges `datetime` guarantees and a
timestamp parser checks. -/
def Dt.Valid (d : Dt) : Prop :=
  1 ≤ d.year ∧ d.year ≤ 9999 ∧ 1 ≤ d.month ∧ d.month ≤ 12 ∧
  1 ≤ d.day ∧ d.day ≤ daysInMonth d.year d.month ∧
  d.hour < 24 ∧ d.minute < 60 ∧ d.second < 60 ∧ d.microsecond < 1000000

instance (d : Dt) : Decidable d.Valid := by
  unfold Dt.Valid
  exact inferInstance

/-- Build a datetime after a calendar validity check, as a strict timestamp
parser does. -/
def mkDt (y mo d h mi s us : ℕ) : Option Dt :=
  if 1 ≤ y ∧ y ≤ 9999 ∧ 1 ≤ mo ∧ mo ≤ 12 ∧ 1 ≤ d ∧ d ≤ daysInMonth y mo ∧
     h < 24 ∧ mi < 60 ∧ s < 60 ∧ us < 1000000 then
    some ⟨y, mo, d, h, mi, s, us⟩
  else none

/-- `pd.to_datetime(..., errors='coerce')` on one cell, restricted to the
ISO shapes the writer emits: `none` models the coerced null (NaT). -/
def parseIso (cs : List Char) : Option Dt :=
  match cs with
  | [y1, y2, y3, y4, c1, m1, m2, c2, d1, d2, c3, h1, h2, c4, n1, n2, c5,
     s1, s2] =>
    if c1 = '-' ∧ c2 = '-' ∧ c3 = 'T' ∧ c4 = ':' ∧ c5 = ':' then do
      let y ← num4 y1 y2 y3 y4
      let mo ← num2 m1 m2
      let d ← num2 d1 d2
      let h ← num2 h1 h2
      let mi ← num2 n1 n2
      let s ← num2 s1 s2
      mkDt y mo d h mi s 0
    else none
  | [y1, y2, y3, y4, c1, m1, m2, c2, d1, d2, c3, h1, h2, c4, n1, n2, c5,
     s1, s2, c6, u1, u2, u3, u4, u5, u6] =>
    if c1 = '-' ∧ c2 = '-' ∧ c3 = 'T' ∧ c4 = ':' ∧ c5 = ':' ∧ c6 = '.' then do
      let y ← num4 y1 y2 y3 y4
      let mo ← num2 m1 m2
      let d ← num2 d1 d2
      let h ← num2 h1 h2
      let mi ← num2 n1 n2
      let s ← num2 s1 s2
      let us ← num6 u1 u2 u3 u4 u5 u6
      mkDt y mo d h mi s us
    else none
  | _ => none

/-- The Report Renderer's read path for one row: the leniently parsed
timestamp and the six numeric fields. -/
def readSample (r : Row) : Option Dt × ℚ × ℚ × ℚ × ℚ × ℚ × ℚ :=
  (parseIso r.ts, r.chargingLevel, r.mileage, r.batteryHealth,
   r.evDrivingRange, r.longitude, r.latitude)

/-- `rangeplot` read path (lines 164-172): load the file, parse the
timestamp column leniently, and take the driving-range series. -/
def rangeplot (c : Option (List CsvLine)) : List (Option Dt × ℚ) :=
  match c with
  | none => []
  | some ls =>
    ls.filterMap fun l =>
      match l with
      | .header => none
      | .data r => some (parseIso r.ts, r.evDrivingRange)

/-- The log file's content after a successful write of row `r` (lines
141-145): full write with header when the file did not exist, append
otherwise. -/
def csvAfterWrite (c : Option (List CsvLine)) (r : Row) : List CsvLine :=
  match c with
  | none => [.header, .data r]
  | some ls => ls ++ [.data r]

/-! ### Concrete instances used by witnesses and counterexamples -/

/-- All-zero gauges (state before the first poll). -/
def gauges0 : Gauges := ⟨0, 0, 0, 0⟩

/-- Fresh process state: zero gauges, no log file yet. -/
def emptyState : SysState := ⟨gauges0, none⟩

/-- State whose log file exists and holds just the header row. -/
def headerOnlyState : SysState := ⟨gauges0, some [CsvLine.header]⟩

/-- A concrete valid wall-clock datetime. -/
def dt0 : Dt := ⟨2026, 10, 12, 8, 30, 5, 123456⟩

/-- A vehicle state fresh by the code's local-clock threshold, with the
battery state-of-health absent. -/
def vFresh : Vehicle := ⟨80, 12345, none, 250, 7, 50, 107000⟩

/-- A stale vehicle state. -/
def vStale : Vehicle := ⟨75, 12000, some 97, 240, 7, 50, 100⟩

/-- A vehicle state newer than UTC-now minus the interval (UTC now is
100000 below) but older than the local-clock threshold of `envTz2`. -/
def vUtcFresh : Vehicle := ⟨80, 12345, some 97, 250, 7, 50, 97200⟩

/-- Environment with the local clock agreeing with UTC, interval 2880 s
(the default APILIMIT of 30). -/
def env0 : Env := ⟨107200, 0, 2880, dt0, true⟩

/-- Environment whose local clock runs 2 h ahead of UTC (UTC now 100000,
local reading 107200). -/
def envTz2 : Env := ⟨107200, 7200, 2880, dt0, true⟩

/-- Like `env0` but the CSV write fails. -/
def envNoWrite : Env := ⟨107200, 0, 2880, dt0, false⟩

/-- Adapter with every call succeeding and a fresh cached vehicle. -/
def aOk : Adapter := ⟨.ok (), .ok (), some vFresh, .ok (), some vFresh⟩

/-- Adapter whose cached vehicle is stale; the forced refresh succeeds. -/
def aStale : Adapter := ⟨.ok (), .ok (), some vStale, .ok (), some vFresh⟩

/-- Adapter raising an authentication failure on the refresh-token step and
on the forced-refresh step. -/
def aAuthFail : Adapter :=
  ⟨.error .authenticationError, .error .authenticationError, none,
   .error .authenticationError, none⟩

/-- Adapter returning `vUtcFresh` from the cached read. -/
def aUtcFresh : Adapter := ⟨.ok (), .ok (), some vUtcFresh, .ok (), some vUtcFresh⟩

/-! ### Helper lemmas: timestamp serialization round-trip -/

theorem charDigit_digitChar (x : ℕ) (h : x < 10) :
    charDigit (Nat.digitChar x) = some x := by
  interval_cases x <;> decide

theorem num2_pad2 (n : ℕ) (h : n < 100) :
    num2 (Nat.digitChar (n / 10 % 10)) (Nat.digitChar (n % 10)) = some n := by
  have h1 := charDigit_digitChar (n / 10 % 10) (Nat.mod_lt _ (by omega))
  have h2 := charDigit_digitChar (n % 10) (Nat.mod_lt _ (by omega))
  simp only [num2, h1, h2, Option.bind_eq_bind, Option.some_bind,
    Option.pure_def, Option.some.injEq]
  omega

theorem num4_pad4 (n : ℕ) (h : n < 10000) :
    num4 (Nat.digitChar (n / 1000 % 10)) (Nat.digitChar (n / 100 % 10))
      (Nat.digitChar (n / 10 % 10)) (Nat.digitChar (n % 10)) = some n := by
  have h1 := charDigit_digitChar (n / 1000 % 10) (Nat.mod_lt _ (by omega))
  have h2 := charDigit_digitChar (n / 100 % 10) (Nat.mod_lt _ (by omega))
  have h3 := charDigit_digitChar (n / 10 % 10) (Nat.mod_lt _ (by omega))
  have h4 := charDigit_digitChar (n % 10) (Nat.mod_lt _ (by omega))
  simp only [num4, h1, h2, h3, h4, Option.bind_eq_bind, Option.some_bind,
    Option.pure_def, Option.some.injEq]
  omega

theorem num6_pad6 (n : ℕ) (h : n < 1000000) :
    num6 (Nat.digitChar (n / 100000 % 10)) (Nat.digitChar (n / 10000 % 10))
      (Nat.digitChar (n / 1000 % 10)) (Nat.digitChar (n / 100 % 10))
      (Nat.digitChar (n / 10 % 10)) (Nat.digitChar (n % 10)) = some n := by
  have h1 := charDigit_digitChar (n / 100000 % 10) (Nat.mod_lt _ (by omega))
  have h2 := charDigit_digitChar (n / 10000 % 10) (Nat.mod_lt _ (by omega))
  have h3 := charDigit_digitChar (n / 1000 % 10) (Nat.mod_lt _ (by omega))
  have h4 := charDigit_digitChar (n / 100 % 10) (Nat.mod_lt _ (by omega))
  have h5 := charDigit_digitChar (n / 10 % 10) (Nat.mod_lt _ (by omega))
  have h6 := charDigit_digitChar (n % 10) (Nat.mod_lt _ (by omega))
  simp only [num6, h1, h2, h3, h4, h5, h6, Option.bind_eq_bind,
    Option.some_bind, Option.pure_def, Option.some.injEq]
  omega

theorem daysInMonth_le (y m : ℕ) : daysInMonth y m ≤ 31 := by
  unfold daysInMonth
  split
  · split <;> omega
  · split <;> omega

theorem mkDt_valid (d : Dt) (h : d.Valid) :
    mkDt d.year d.month d.day d.hour d.minute d.second d.microsecond =
      some d := by
  obtain ⟨h1, h2, h3, h4, h5, h6, h7, h8, h9, h10⟩ := h
  unfold mkDt
  split
  · rfl
  · next hc => exact absurd ⟨h1, h2, h3, h4, h5, h6, h7, h8, h9, h10⟩ hc

/-- A valid datetime's `isoformat` output parses back (not coerced to null)
to the same datetime. -/
theorem parseIso_isoChars (d : Dt) (h : d.Valid) :
    parseIso (isoChars d) = some d := by
  obtain ⟨h1, h2, h3, h4, h5, h6, h7, h8, h9, h10⟩ := h
  have ey := num4_pad4 d.year (by omega)
  have emo := num2_pad2 d.month (by omega)
  have eda := num2_pad2 d.day
    (by have := daysInMonth_le d.year d.month; omega)
  have eh := num2_pad2 d.hour (by omega)
  have emi := num2_pad2 d.minute (by omega)
  have es := num2_pad2 d.second (by omega)
  have hmk := mkDt_valid d ⟨h1, h2, h3, h4, h5, h6, h7, h8, h9, h10⟩
  by_cases hus : d.microsecond = 0
  · rw [show isoChars d =
      [Nat.digitChar (d.year / 1000 % 10), Nat.digitChar (d.year / 100 % 10),
       Nat.digitChar (d.year / 10 % 10), Nat.digitChar (d.year % 10), '-',
       Nat.digitChar (d.month / 10 % 10), Nat.digitChar (d.month % 10), '-',
       Nat.digitChar (d.day / 10 % 10), Nat.digitChar (d.day % 10), 'T',
       Nat.digitChar (d.hour / 10 % 10), Nat.digitChar (d.hour % 10), ':',
       Nat.digitChar (d.minute / 10 % 10), Nat.digitChar (d.minute % 10), ':',
       Nat.digitChar (d.second / 10 % 10), Nat.digitChar (d.second % 10)]
      by simp [isoChars, pad4, pad2, hus]]
    simp only [parseIso]
    simp only [true_and, and_self, if_true, ey, emo, eda, eh, emi, es,
      Option.bind_eq_bind, Option.some_bind]
    rw [← hus]
    exact hmk
  · rw [show isoChars d =
      [Nat.digitChar (d.year / 1000 % 10), Nat.digitChar (d.year / 100 % 10),
       Nat.digitChar (d.year / 10 % 10), Nat.digitChar (d.year % 10), '-',
       Nat.digitChar (d.month / 10 % 10), Nat.digitChar (d.month % 10), '-',
       Nat.digitChar (d.day / 10 % 10), Nat.digitChar (d.day % 10), 'T',
       Nat.digitChar (d.hour / 10 % 10), Nat.digitChar (d.hour % 10), ':',
       Nat.digitChar (d.minute / 10 % 10), Nat.digitChar (d.minute % 10), ':',
       Nat.digitChar (d.second / 10 % 10), Nat.digitChar (d.second % 10), '.',
       Nat.digitChar (d.microsecond / 100000 % 10),
       Nat.digitChar (d.microsecond / 10000 % 10),
       Nat.digitChar (d.microsecond / 1000 % 10),
       Nat.digitChar (d.microsecond / 100 % 10),
       Nat.digitChar (d.microsecond / 10 % 10),
       Nat.digitChar (d.microsecond % 10)]
      by simp [isoChars, pad4, pad2, pad6, hus]]
    have eus := num6_pad6 d.microsecond (by omega)
    simp only [parseIso]
    simp only [true_and, and_self, if_true, ey, emo, eda, eh, emi, es, eus,
      Option.bind_eq_bind, Option.some_bind]
    exact hmk

/-! ### Helper lemmas: the acquisition cycle -/

theorem publishAndLog_forcedRefreshCalls (env : Env) (v : Vehicle) (k : ℕ)
    (s : SysState) : (publishAndLog env v k s).forcedRefreshCalls = k := by
  rcases hc : s.csv with _ | ls <;> by_cases hw : env.csvWriteOk <;>
    simp [publishAndLog, hc, hw]

theorem publishAndLog_gauges (env : Env) (v : Vehicle) (k : ℕ)
    (s : SysState) : (publishAndLog env v k s).state.gauges = gaugesOf v := by
  rcases hc : s.csv with _ | ls <;> by_cases hw : env.csvWriteOk <;>
    simp [publishAndLog, hc, hw]

theorem publishAndLog_csv_ok (env : Env) (v : Vehicle) (k : ℕ) (s : SysState)
    (hw : env.csvWriteOk = true) :
    (publishAndLog env v k s).state.csv =
      some (csvAfterWrite s.csv (rowOf env v)) := by
  rcases hc : s.csv with _ | ls <;> simp [publishAndLog, csvAfterWrite, hc, hw]

theorem publishAndLog_csv_fail (env : Env) (v : Vehicle) (k : ℕ)
    (s : SysState) (hw : env.csvWriteOk = false) :
    (publishAndLog env v k s).state.csv = s.csv ∧
    (publishAndLog env v k s).outcome = .raised .ioError := by
  rcases hc : s.csv with _ | ls <;> simp [publishAndLog, hc, hw]

theorem dataRowCount_csvAfterWrite (c : Option (List CsvLine)) (r : Row) :
    dataRowCount (some (csvAfterWrite c r)) = dataRowCount c + 1 := by
  rcases c with _ | ls <;>
    simp [dataRowCount, csvAfterWrite, CsvLine.isData, List.filter_append]

/-- A cycle that obtains a vehicle state `v` runs the publish-and-log tail
on `v`; `k` is the number of forced-refresh calls it made on the way. -/
theorem fetch_of_obtained (env : Env) (a : Adapter) (s : SysState)
    (v : Vehicle) (h : obtainedVehicle env a = some v) :
    ∃ k, fetch_and_update_metrics env a s = publishAndLog env v k s := by
  rcases hs : step1Vehicle a with _ | w
  · rcases hf : a.forceRefresh with e | u
    · simp [obtainedVehicle, hs, hf] at h
    · rcases hg : a.getVehicle2 with _ | w
      · simp [obtainedVehicle, hs, hf, hg] at h
      · simp only [obtainedVehicle, hs, hf, hg, Option.some.injEq] at h
        subst h
        exact ⟨1, by simp [fetch_and_update_metrics, forcedPath, hs, hf, hg]⟩
  · by_cases hst : w.last_updated_at < lastUpdatedThreshold env
    · rcases hf : a.forceRefresh with e | u
      · simp [obtainedVehicle, hs, hf, hst] at h
      · rcases hg : a.getVehicle2 with _ | x
        · simp [obtainedVehicle, hs, hf, hg, hst] at h
        · simp only [obtainedVehicle, hs, hst, if_true, hf, hg,
            Option.some.injEq] at h
          subst h
          exact ⟨1, by
            simp [fetch_and_update_metrics, forcedPath, hs, hf, hg, hst]⟩
    · simp only [obtainedVehicle, hs, hst, if_false, Option.some.injEq] at h
      subst h
      exact ⟨0, by simp [fetch_and_update_metrics, hs, hst]⟩

/-- A cycle that obtains no vehicle state leaves the system state untouched. -/
theorem fetch_of_not_obtained (env : Env) (a : Adapter) (s : SysState)
    (h : obtainedVehicle env a = none) :
    (fetch_and_update_metrics env a s).state = s := by
  rcases hs : step1Vehicle a with _ | w
  · rcases hf : a.forceRefresh with e | u
    · simp [fetch_and_update_metrics, forcedPath, hs, hf]
    · rcases hg : a.getVehicle2 with _ | w
      · simp [fetch_and_update_metrics, forcedPath, hs, hf, hg]
      · simp [obtainedVehicle, hs, hf, hg] at h
  · by_cases hst : w.last_updated_at < lastUpdatedThreshold env
    · rcases hf : a.forceRefresh with e | u
      · simp [fetch_and_update_metrics, forcedPath, hs, hf, hst]
      · rcases hg : a.getVehicle2 with _ | x
        · simp [fetch_and_update_metrics, forcedPath, hs, hf, hg, hst]
        · simp [obtainedVehicle, hs, hf, hg, hst] at h
    · simp [obtainedVehicle, hs, hst] at h

/-- The renderer's driving-range series ends with the row just appended. -/
theorem rangeplot_append_data (pre : List CsvLine) (r : Row) :
    (rangeplot (some (pre ++ [CsvLine.data r]))).getLast? =
      some (parseIso r.ts, r.evDrivingRange) := by
  simp only [rangeplot]
  rw [List.filterMap_append]
  rw [show (List.filterMap (fun l =>
      match l with
      | .header => none
      | .data r => some (parseIso r.ts, r.evDrivingRange))
      [CsvLine.data r] : List (Option Dt × ℚ)) =
      [(parseIso r.ts, r.evDrivingRange)] from rfl]
  rw [List.getLast?_concat]

/-! ### Claim theorems -/

/-- C1: the claim states that no polling-time failure ever escapes
`fetch_and_update_metrics` into the scheduler loop, and that with an
authentication failure on both the refresh-token step and the forced-refresh
step the next cycle proceeds on schedule.  The code contradicts this:
`force_refresh_vehicle_state` (line 109) sits outside every try-block, so
the recognized authentication failure it raises propagates out of
`fetch_and_update_metrics`, and the `while True` loop of `scheduled_update`
(which has no handler) terminates.  No Sample is written (the state is
untouched), but the scheduler does not reach the next cycle.  This theorem
evaluates the embedding at that failing input. -/
theorem authFailureOnForcedRefreshEscapes :
    PyError.recognized .authenticationError = true ∧
    (fetch_and_update_metrics env0 aAuthFail emptyState).outcome =
      .raised .authenticationError ∧
    (fetch_and_update_metrics env0 aAuthFail emptyState).state =
      emptyState ∧
    scheduled_update_step env0 aAuthFail 107200 5 emptyState =
      .crashed .authenticationError :=
  ⟨rfl, rfl, rfl, rfl⟩

/-- C2 counterexample: a cached vehicle state strictly newer than UTC-now
minus the interval (both instants taken in UTC, as the claim demands) still
triggers the forced refresh, because line 105 computes the threshold from
the local wall clock (here 2 h ahead of UTC) and merely re-tags it as UTC. -/
theorem utcFreshCacheStillForceRefreshed :
    envTz2.utcNow - envTz2.intervalS < vUtcFresh.last_updated_at ∧
    step1Vehicle aUtcFresh = some vUtcFresh ∧
    (fetch_and_update_metrics envTz2 aUtcFresh emptyState).forcedRefreshCalls
      = 1 :=
  ⟨by decide, rfl, rfl⟩

/-- C2 (amended): the staleness threshold is computed from the *local*
`datetime.now()` reading minus the interval (line 105), merely re-tagged as
UTC.  For every cycle in which the cached vehicle state is present and its
last-updated instant is not older than that local-clock threshold,
`fetch_and_update_metrics` does not invoke the forced-refresh operation. -/
theorem freshCacheByLocalClockNoForcedRefresh (env : Env) (a : Adapter)
    (s : SysState) (v : Vehicle) (hv : step1Vehicle a = some v)
    (hfresh : ¬ v.last_updated_at < lastUpdatedThreshold env) :
    (fetch_and_update_metrics env a s).forcedRefreshCalls = 0 := by
  simp only [fetch_and_update_metrics, hv, if_neg hfresh]
  exact publishAndLog_forcedRefreshCalls env v 0 s

theorem freshCacheByLocalClockNoForcedRefreshWitness :
    (fetch_and_update_metrics env0 aOk emptyState).forcedRefreshCalls = 0 :=
  freshCacheByLocalClockNoForcedRefresh env0 aOk emptyState vFresh rfl
    (by decide)

/-- C3: in every cycle whose cached vehicle state is absent or older than the
staleness threshold, `fetch_and_update_metrics` invokes
`force_refresh_vehicle_state` exactly once; if that call fails, the state is
still untouched (so the refresh happened before any publishing or logging),
and on success the published gauges come from the post-refresh re-read. -/
theorem staleOrAbsentForcesRefreshOnce (env : Env) (a : Adapter)
    (s : SysState)
    (h : step1Vehicle a = none ∨
      ∃ v, step1Vehicle a = some v ∧
        v.last_updated_at < lastUpdatedThreshold env) :
    (fetch_and_update_metrics env a s).forcedRefreshCalls = 1 ∧
    (∀ e, a.forceRefresh = .error e →
      (fetch_and_update_metrics env a s).state = s) ∧
    (∀ v2, a.forceRefresh = .ok () → a.getVehicle2 = some v2 →
      (fetch_and_update_metrics env a s).state.gauges = gaugesOf v2) := by
  have hred : fetch_and_update_metrics env a s = forcedPath env a s := by
    rcases h with h | ⟨v, hv, hst⟩
    · simp [fetch_and_update_metrics, h]
    · simp [fetch_and_update_metrics, hv, hst]
  rw [hred]
  refine ⟨?_, ?_, ?_⟩
  · rcases hf : a.forceRefresh with e | u
    · simp [forcedPath, hf]
    · rcases hg : a.getVehicle2 with _ | w
      · simp [forcedPath, hf, hg]
      · simp [forcedPath, hf, hg, publishAndLog_forcedRefreshCalls]
  · intro e he
    simp [forcedPath, he]
  · intro v2 hok hg
    simp [forcedPath, hok, hg, publishAndLog_gauges]

theorem staleOrAbsentForcesRefreshOnceWitness :
    (fetch_and_update_metrics env0 aStale emptyState).forcedRefreshCalls
      = 1 ∧
    (∀ e, aStale.forceRefresh = .error e →
      (fetch_and_update_metrics env0 aStale emptyState).state =
        emptyState) ∧
    (∀ v2, aStale.forceRefresh = .ok () → aStale.getVehicle2 = some v2 →
      (fetch_and_update_metrics env0 aStale emptyState).state.gauges =
        gaugesOf v2) :=
  staleOrAbsentForcesRefreshOnce env0 aStale emptyState
    (Or.inr ⟨vStale, rfl, by decide⟩)

/-- C4: provided the log-store write itself succeeds, a Sample row is
appended if and only if a vehicle state (cached or obtained by forced
refresh) was successfully obtained this cycle; when none is obtained, the
cycle leaves the whole state — row count and all four gauges — unchanged. -/
theorem sampleWrittenIffVehicleObtained (env : Env) (a : Adapter)
    (s : SysState) (hok : env.csvWriteOk = true) :
    (dataRowCount (fetch_and_update_metrics env a s).state.csv =
        dataRowCount s.csv + 1 ↔ (obtainedVehicle env a).isSome = true) ∧
    (obtainedVehicle env a = none →
      (fetch_and_update_metrics env a s).state = s) := by
  rcases hov : obtainedVehicle env a with _ | v
  · have hst := fetch_of_not_obtained env a s hov
    refine ⟨?_, fun _ => hst⟩
    rw [hst]
    simp
  · obtain ⟨k, hk⟩ := fetch_of_obtained env a s v hov
    rw [hk]
    refine ⟨?_, ?_⟩
    · rw [publishAndLog_csv_ok env v k s hok, dataRowCount_csvAfterWrite]
      simp
    · intro hc
      cases hc

theorem sampleWrittenIffVehicleObtainedWitness :
    (dataRowCount
        (fetch_and_update_metrics env0 aOk emptyState).state.csv =
        dataRowCount emptyState.csv + 1 ↔
        (obtainedVehicle env0 aOk).isSome = true) ∧
    (obtainedVehicle env0 aOk = none →
      (fetch_and_update_metrics env0 aOk emptyState).state = emptyState) :=
  sampleWrittenIffVehicleObtained env0 aOk emptyState rfl

/-- C5 counterexample: with the default rate budget (APILIMIT = 30, interval
2880 s) and an iteration starting 30 s past the minute, the minute-truncation
in `scheduled_update` (line 159) makes the next iteration start only 2850 s
later — strictly closer than the interval, refuting the claim that
consecutive iteration start times are never closer than `86400/N` seconds. -/
theorem consecutiveIterationsCloserThanInterval :
    (interval_between_requests 30 : ℤ) = 2880 ∧
    nextIterStart 2880 30 0 - 30 < 2880 :=
  ⟨rfl, by decide⟩

/-- C5 (amended): minute-truncation of `next_update` can bring consecutive
iteration start times up to one minute closer than the interval, but no
closer: the gap between consecutive iteration start times always exceeds
`interval − 60` seconds, whatever the fetch duration. -/
theorem iterationGapLowerBound (intervalS now dur : ℤ) :
    intervalS - 60 < nextIterStart intervalS now dur - now := by
  have hmax :=
    le_max_right (0 : ℤ) (truncMinute (now + intervalS) - (now + dur))
  unfold nextIterStart truncMinute at *
  omega

/-- C6: when a vehicle state is obtained and the write succeeds, a
first-ever poll (no log file) creates the file as header row plus exactly
the one new data row, a poll against an existing file appends exactly the
one new data row at the end, and the header count afterwards is 1 for a
fresh file and unchanged otherwise — the header is never re-emitted. -/
theorem csvHeaderOnFirstWriteThenAppend (env : Env) (a : Adapter)
    (s : SysState) (v : Vehicle) (hv : obtainedVehicle env a = some v)
    (hok : env.csvWriteOk = true) :
    (s.csv = none →
      (fetch_and_update_metrics env a s).state.csv =
        some [CsvLine.header, CsvLine.data (rowOf env v)]) ∧
    (∀ ls, s.csv = some ls →
      (fetch_and_update_metrics env a s).state.csv =
        some (ls ++ [CsvLine.data (rowOf env v)])) ∧
    headerRowCount (fetch_and_update_metrics env a s).state.csv =
      (if s.csv = none then 1 else headerRowCount s.csv) := by
  obtain ⟨k, hk⟩ := fetch_of_obtained env a s v hv
  rw [hk]
  have hc := publishAndLog_csv_ok env v k s hok
  refine ⟨?_, ?_, ?_⟩
  · intro hnone
    rw [hc, hnone]
    rfl
  · intro ls hls
    rw [hc, hls]
    rfl
  · rcases hcs : s.csv with _ | ls
    · rw [hc, hcs]
      simp [csvAfterWrite, headerRowCount, CsvLine.isData]
    · rw [hc, hcs]
      simp [csvAfterWrite, headerRowCount, CsvLine.isData,
        List.filter_append]

theorem csvHeaderOnFirstWriteThenAppendWitness :
    (emptyState.csv = none →
      (fetch_and_update_metrics env0 aOk emptyState).state.csv =
        some [CsvLine.header, CsvLine.data (rowOf env0 vFresh)]) ∧
    (∀ ls, emptyState.csv = some ls →
      (fetch_and_update_metrics env0 aOk emptyState).state.csv =
        some (ls ++ [CsvLine.data (rowOf env0 vFresh)])) ∧
    headerRowCount (fetch_and_update_metrics env0 aOk emptyState).state.csv =
      (if emptyState.csv = none then 1
       else headerRowCount emptyState.csv) :=
  csvHeaderOnFirstWriteThenAppend env0 aOk emptyState vFresh rfl rfl

/-- C7 counterexample: `86400 // APILIMIT` (line 69) is floor division; for
`max_requests_per_day = 7` the code's interval is 12342 s whereas the exact
division `86400/7` is not an integer, so `7 · interval ≠ 86400`. -/
theorem intervalNotExactDivision :
    interval_between_requests 7 = 12342 ∧
    (7 : ℚ) * (interval_between_requests 7 : ℚ) ≠ 86400 := by
  refine ⟨rfl, ?_⟩
  norm_num [interval_between_requests]

/-- C7 (amended): for every positive `max_requests_per_day = N` the interval
is `⌊86400 / N⌋` seconds — characterized by `N·i ≤ 86400 < N·(i+1)` — and it
equals the exact division precisely when `N` divides 86400. -/
theorem intervalIsFloorDivision (n : ℕ) (hn : 0 < n) :
    n * interval_between_requests n ≤ 86400 ∧
    86400 < n * (interval_between_requests n + 1) ∧
    (n ∣ 86400 → n * interval_between_requests n = 86400) := by
  have h1 := Nat.div_add_mod 86400 n
  have h2 := Nat.mod_lt 86400 hn
  have hdist : n * (86400 / n + 1) = n * (86400 / n) + n := by ring
  unfold interval_between_requests
  refine ⟨by omega, by omega, fun hd => ?_⟩
  have h3 : 86400 % n = 0 := Nat.dvd_iff_mod_eq_zero.mp hd
  omega

theorem intervalIsFloorDivisionWitness :
    30 * interval_between_requests 30 ≤ 86400 ∧
    86400 < 30 * (interval_between_requests 30 + 1) ∧
    (30 ∣ 86400 → 30 * interval_between_requests 30 = 86400) :=
  intervalIsFloorDivision 30 (by decide)

/-- C8: in every successful cycle whose vehicle state carries no battery
state-of-health value, the value published to the battery-health gauge and
the value written in the appended Sample row are both `0` (a number, not an
absent value and not an error). -/
theorem absentBatteryHealthLoggedAsZero (env : Env) (a : Adapter)
    (s : SysState) (v : Vehicle) (hv : obtainedVehicle env a = some v)
    (hsoh : v.ev_battery_soh_percentage = none)
    (hok : env.csvWriteOk = true) :
    (fetch_and_update_metrics env a s).state.gauges.batteryHealth = 0 ∧
    ∃ pre r, (fetch_and_update_metrics env a s).state.csv =
        some (pre ++ [CsvLine.data r]) ∧ r.batteryHealth = 0 := by
  obtain ⟨k, hk⟩ := fetch_of_obtained env a s v hv
  rw [hk]
  have hbh : batteryHealthOf v = 0 := by simp [batteryHealthOf, hsoh]
  constructor
  · rw [publishAndLog_gauges]
    simp [gaugesOf, hbh]
  · rw [publishAndLog_csv_ok env v k s hok]
    rcases hcs : s.csv with _ | ls
    · exact ⟨[CsvLine.header], rowOf env v, by simp [csvAfterWrite],
        by simp [rowOf, hbh]⟩
    · exact ⟨ls, rowOf env v, by simp [csvAfterWrite],
        by simp [rowOf, hbh]⟩

theorem absentBatteryHealthLoggedAsZeroWitness :
    (fetch_and_update_metrics env0 aOk emptyState).state.gauges.batteryHealth
      = 0 ∧
    ∃ pre r, (fetch_and_update_metrics env0 aOk emptyState).state.csv =
        some (pre ++ [CsvLine.data r]) ∧ r.batteryHealth = 0 :=
  absentBatteryHealthLoggedAsZero env0 aOk emptyState vFresh rfl rfl rfl

/-- C9: every Sample appended in a successful cycle, read back through the
Report Renderer's read path, reproduces the same six numeric field values
exactly, and its timestamp parses to the instant that was written (not a
coerced null); in particular the driving-range series of `rangeplot` ends
with the parsed timestamp and the logged range. -/
theorem loggedSampleRoundTrips (env : Env) (a : Adapter) (s : SysState)
    (v : Vehicle) (hv : obtainedVehicle env a = some v)
    (hok : env.csvWriteOk = true) (hts : env.logTime.Valid) :
    ∃ pre r, (fetch_and_update_metrics env a s).state.csv =
        some (pre ++ [CsvLine.data r]) ∧
      readSample r = (some env.logTime, v.ev_battery_percentage, v.odometer,
        batteryHealthOf v, v.ev_driving_range, v.location_longitude,
        v.location_latitude) ∧
      (rangeplot (fetch_and_update_metrics env a s).state.csv).getLast? =
        some (some env.logTime, v.ev_driving_range) := by
  obtain ⟨k, hk⟩ := fetch_of_obtained env a s v hv
  rw [hk, publishAndLog_csv_ok env v k s hok]
  have hp : parseIso (isoChars env.logTime) = some env.logTime :=
    parseIso_isoChars _ hts
  have hread : readSample (rowOf env v) =
      (some env.logTime, v.ev_battery_percentage, v.odometer,
        batteryHealthOf v, v.ev_driving_range, v.location_longitude,
        v.location_latitude) := by
    simp [readSample, rowOf, hp]
  rcases s.csv with _ | ls
  · refine ⟨[CsvLine.header], rowOf env v, by simp [csvAfterWrite], hread, ?_⟩
    rw [show csvAfterWrite none (rowOf env v) =
      [CsvLine.header] ++ [CsvLine.data (rowOf env v)] from rfl,
      rangeplot_append_data]
    simp [rowOf, hp]
  · refine ⟨ls, rowOf env v, by simp [csvAfterWrite], hread, ?_⟩
    rw [show csvAfterWrite (some ls) (rowOf env v) =
      ls ++ [CsvLine.data (rowOf env v)] from rfl, rangeplot_append_data]
    simp [rowOf, hp]

theorem loggedSampleRoundTripsWitness :
    ∃ pre r, (fetch_and_update_metrics env0 aOk emptyState).state.csv =
        some (pre ++ [CsvLine.data r]) ∧
      readSample r = (some env0.logTime, vFresh.ev_battery_percentage,
        vFresh.odometer, batteryHealthOf vFresh, vFresh.ev_driving_range,
        vFresh.location_longitude, vFresh.location_latitude) ∧
      (rangeplot
          (fetch_and_update_metrics env0 aOk emptyState).state.csv).getLast?
        = some (some env0.logTime, vFresh.ev_driving_range) :=
  loggedSampleRoundTrips env0 aOk emptyState vFresh rfl rfl (by decide)

/-- C10: in a successful cycle the gauges are overwritten before the log
append; hence when the append itself fails, the cycle ends with the Metrics
Publisher already holding the new values while the Log Store is unchanged
(and the write error propagates) — publishing and logging are not atomic. -/
theorem gaugesUpdatedBeforeAppendFailure (env : Env) (a : Adapter)
    (s : SysState) (v : Vehicle) (ls : List CsvLine)
    (hv : obtainedVehicle env a = some v)
    (hfail : env.csvWriteOk = false) (hcs : s.csv = some ls) :
    (fetch_and_update_metrics env a s).state.gauges = gaugesOf v ∧
    (fetch_and_update_metrics env a s).state.csv = some ls ∧
    (fetch_and_update_metrics env a s).outcome = .raised .ioError := by
  obtain ⟨k, hk⟩ := fetch_of_obtained env a s v hv
  rw [hk]
  obtain ⟨h1, h2⟩ := publishAndLog_csv_fail env v k s hfail
  exact ⟨publishAndLog_gauges env v k s, hcs ▸ h1, h2⟩

theorem gaugesUpdatedBeforeAppendFailureWitness :
    (fetch_and_update_metrics envNoWrite aOk headerOnlyState).state.gauges =
      gaugesOf vFresh ∧
    (fetch_and_update_metrics envNoWrite aOk headerOnlyState).state.csv =
      some [CsvLine.header] ∧
    (fetch_and_update_metrics envNoWrite aOk headerOnlyState).outcome =
      .raised .ioError :=
  gaugesUpdatedBeforeAppendFailure envNoWrite aOk headerOnlyState vFresh
    [CsvLine.header] rfl rfl rfl

end Pyvisioniq
